import Mathlib

/-!
# zynq-pwm: the AXI PWM driver (`zynq-pwm.c`)

A shallow embedding of the driver's four functions

* `axi_pwm_config`  (zynq-pwm.c:27-35)
* `axi_pwm_capture` (zynq-pwm.c:37-47)
* `axi_pwm_remove`  (zynq-pwm.c:49-53)
* `axi_pwm_probe`   (zynq-pwm.c:71-129)

C `int` is a 32-bit two's complement integer, `u32`, `unsigned int` and
`unsigned long` are 32-bit unsigned integers (the Zynq-7000 is a 32-bit ARM
target).  Machine integers are `Int`/`Nat` with explicit reduction modulo
`2^32`.  Arithmetic that is undefined in C (division by zero, signed
overflow) is a `Fault`: the function stops there and returns nothing.

Kernel services the driver calls (`ioread32`, `iowrite32`, `devm_*`,
`clk_*`, `pwmchip_*`) are not part of the file: register access is a
parameter (`RegisterInterface`), the results of the other services are the
fields of `Platform`, and every call is recorded in a trace.
-/

namespace ZynqPwm

set_option linter.unusedVariables false

/-! ## Register offsets (zynq-pwm.c:10-13) -/

def AXI_PWM_GENERATE_UP_ADDR : Nat := 0x00000000
def AXI_PWM_GENERATE_DOWN_ADDR : Nat := 0x00000000
def AXI_PWM_CAPTURE_UP_ADDR : Nat := 0x00000000
def AXI_PWM_CAPTURE_DOWN_ADDR : Nat := 0x00000000

/-! ## C integer arithmetic -/

/-- Undefined behaviour of C integer arithmetic that the driver can reach. -/
inductive Fault where
  | divByZero
  | signedOverflow
  deriving DecidableEq, Repr

def INT_MIN : Int := -2147483648
def INT_MAX : Int := 2147483647

/-- Conversion of an `int` to `u32` / `unsigned long`: reduction modulo `2^32`. -/
def toU32 (x : Int) : Nat := (x % 4294967296).toNat

/-- Conversion of a 32-bit unsigned value to `int` (two's complement wrap). -/
def toInt32 (n : Nat) : Int :=
  if n % 4294967296 < 2147483648 then ((n % 4294967296 : Nat) : Int)
  else ((n % 4294967296 : Nat) : Int) - 4294967296

/-- Signed `int / int`: truncates toward zero; undefined for a zero divisor
and for `INT_MIN / -1`. -/
def sdiv (a b : Int) : Except Fault Int :=
  if b = 0 then .error .divByZero
  else if a = INT_MIN ∧ b = -1 then .error .signedOverflow
  else .ok (Int.tdiv a b)

/-- Signed `int - int`: undefined when the difference leaves the `int` range. -/
def ssub (a b : Int) : Except Fault Int :=
  if INT_MIN ≤ a - b ∧ a - b ≤ INT_MAX then .ok (a - b)
  else .error .signedOverflow

/-- Unsigned 32-bit division: undefined for a zero divisor. -/
def udiv (a b : Nat) : Except Fault Nat :=
  if b = 0 then .error .divByZero else .ok (a / b)

/-- Unsigned 32-bit addition `u32 + u32`: wraps modulo `2^32`. -/
def uadd (a b : Nat) : Nat := (a + b) % 4294967296

/-! ## Data (zynq-pwm.c:15-20, linux/pwm.h) -/

/-- The fields of `struct pwm_chip` that `axi_pwm_probe` assigns
(zynq-pwm.c:97-102).  Pointer-valued fields record whether they were set. -/
structure pwm_chip where
  dev : Bool := false
  ops : Bool := false
  base : Int := 0
  npwm : Nat := 0
  of_xlate : Bool := false
  of_pwm_n_cells : Nat := 0
  deriving DecidableEq, Repr

/-- `struct axi_pwm_chip` (zynq-pwm.c:15-20). `base_addr` is the mapped
address of the register bank. -/
structure axi_pwm_chip where
  dev : Bool := false
  chip : pwm_chip := {}
  base_addr : Nat := 0
  clk_ns : Int := 0
  deriving DecidableEq, Repr

/-- `struct pwm_capture` of linux/pwm.h: two `unsigned int` fields. -/
structure pwm_capture where
  period : Nat := 0
  duty_cycle : Nat := 0
  deriving DecidableEq, Repr

/-- How a driver function ends: it returns `code` (0 or a negative errno), or
it reaches undefined behaviour.  Both carry the state reached. -/
inductive Outcome (σ : Type) where
  | returned (code : Int) (s : σ)
  | fault (f : Fault) (s : σ)
  deriving DecidableEq, Repr

/-! ## Register access -/

/-- The two kernel accessors the driver uses on the mapped register bank, over
a hardware state `σ`.  `ioread32 s addr` is the `u32` read and the state after
the read; `iowrite32 s value addr` is the state after the write. -/
structure RegisterInterface (σ : Type) where
  ioread32 : σ → Nat → Nat × σ
  iowrite32 : σ → Nat → Nat → σ

/-- Modelled from the spec: the RegisterInterface of section 4.1/4.3, whose
`ioread32`/`iowrite32` bodies are kernel code outside the file.  A register
bank that stores what is written ("two register writes, observable by any
subsequent capture"): a read returns the last value written to that address. -/
def storing : RegisterInterface (Nat → Nat) where
  ioread32 := fun s addr => (s addr, s)
  iowrite32 := fun s value addr => fun a => if a = addr then value % 4294967296 else s a

/-- A register interface that only records the writes, as `(address, value)`
pairs in program order; reads return 0. -/
def recording : RegisterInterface (List (Nat × Nat)) where
  ioread32 := fun s _ => (0, s)
  iowrite32 := fun s value addr => s ++ [(addr, value)]

/-- A register interface whose reads return scripted values in order (the
counts latched by the hardware); writes are ignored. -/
def scripted : RegisterInterface (List Nat) where
  ioread32 := fun s _ => (s.headD 0, s.tail)
  iowrite32 := fun s _ _ => s

/-! ## `axi_pwm_config` (zynq-pwm.c:27-35) -/

/-- Model of `axi_pwm_config`: `pc` is the chip found by `container_of`. -/
def axi_pwm_config {σ : Type} (hw : RegisterInterface σ) (pc : axi_pwm_chip) (s : σ)
    (duty_ns period_ns : Int) : Outcome σ :=
  -- u32 up_count = pc->clk_ns / duty_ns;
  match sdiv pc.clk_ns duty_ns with
  | .error f => .fault f s
  | .ok q1 =>
    let up_count := toU32 q1
    -- u32 down_count = pc->clk_ns / (pc->clk_ns - duty_ns);
    match ssub pc.clk_ns duty_ns with
    | .error f => .fault f s
    | .ok d =>
      match sdiv pc.clk_ns d with
      | .error f => .fault f s
      | .ok q2 =>
        let down_count := toU32 q2
        let s1 := hw.iowrite32 s up_count (pc.base_addr + AXI_PWM_CAPTURE_UP_ADDR)
        let s2 := hw.iowrite32 s1 down_count (pc.base_addr + AXI_PWM_CAPTURE_DOWN_ADDR)
        .returned 0 s2

/-! ## `axi_pwm_capture` (zynq-pwm.c:37-47) -/

/-- Model of `axi_pwm_capture`.  The state is the hardware state and
the caller's `*result`.  `clk_ns` is converted to unsigned for both divisions
(`int / u32`). -/
def axi_pwm_capture {σ : Type} (hw : RegisterInterface σ) (pc : axi_pwm_chip) (s : σ)
    (result : pwm_capture) (timeout : Nat) : Outcome (σ × pwm_capture) :=
  let r1 := hw.ioread32 s (pc.base_addr + AXI_PWM_CAPTURE_UP_ADDR)
  let up_count := r1.1 % 4294967296
  let r2 := hw.ioread32 r1.2 (pc.base_addr + AXI_PWM_CAPTURE_DOWN_ADDR)
  let down_count := r2.1 % 4294967296
  -- result->period = pc->clk_ns / (up_count + down_count);
  match udiv (toU32 pc.clk_ns) (uadd up_count down_count) with
  | .error f => .fault f (r2.2, result)
  | .ok p =>
    let result1 := { result with period := p }
    -- result->duty_cycle = pc->clk_ns / up_count;
    match udiv (toU32 pc.clk_ns) up_count with
    | .error f => .fault f (r2.2, result1)
    | .ok d => .returned 0 (r2.2, { result1 with duty_cycle := d })

/-! ## Platform services used by `axi_pwm_probe` and `axi_pwm_remove` -/

def ENOMEM : Int := 12
def ENODEV : Int := 19

/-- `IS_ERR` of linux/err.h on a 32-bit pointer value: the top 4095
addresses encode an errno. -/
def IS_ERR (ptr : Nat) : Bool := decide (4294967296 - 4095 ≤ ptr % 4294967296)

/-- `PTR_ERR` of linux/err.h: the pointer value read as a signed integer. -/
def PTR_ERR (ptr : Nat) : Int := toInt32 ptr

/-- A call the driver issues to the kernel.  Arguments are left out.  The last
four are the kernel's enabling and releasing calls for the clock, the register
mapping, the clock handle and the allocations. -/
inductive Call where
  | devm_kzalloc
  | platform_get_resource
  | devm_ioremap_resource
  | devm_clk_get
  | dev_err
  | clk_get_rate
  | pwmchip_add
  | pwm_set_chip_data (i : Nat)
  | platform_set_drvdata
  | platform_get_drvdata
  | pwmchip_remove
  | clk_disable_unprepare
  | clk_prepare_enable
  | devm_iounmap
  | devm_clk_put
  | devm_kfree
  deriving DecidableEq, Repr

/-- What the kernel answers to the calls of `axi_pwm_probe` and
`axi_pwm_remove`. -/
structure Platform where
  /-- `devm_kzalloc(&pdev->dev, sizeof(*axi_pwm), GFP_KERNEL)` is non-NULL -/
  kzalloc_chip : Bool
  /-- `platform_get_resource(pdev, IORESOURCE_MEM, 0)`; `none` is NULL -/
  resource : Option Nat
  /-- pointer returned by `devm_ioremap_resource` -/
  ioremap : Nat
  /-- pointer returned by `devm_clk_get` -/
  clk : Nat
  /-- `clk_get_rate(clk)`, an `unsigned long` -/
  rate : Nat
  /-- return value of `pwmchip_add` -/
  pwmchip_add : Int
  /-- `devm_kzalloc(axi_pwm->dev, sizeof(*data), GFP_KERNEL)` for channel `i`
  is non-NULL -/
  kzalloc_data : Nat → Bool
  /-- return value of `pwmchip_remove` -/
  pwmchip_remove : Int

/-- The pointer kept as the platform device's driver data. -/
inductive DrvData where
  | unset
  | axi_pwm_chip
  /-- `&axi_pwm->chip.pwms[i]`; `none` is the uninitialised local `pwm` -/
  | pwm_device (i : Option Nat)
  deriving DecidableEq, Repr

/-- The platform device as the driver leaves it: the calls issued so far, the
`axi_pwm_chip` allocated by probe, and the driver data pointer. -/
structure Device where
  trace : List Call := []
  axi_pwm : Option axi_pwm_chip := none
  drvdata : DrvData := .unset
  deriving DecidableEq, Repr

def Device.call (d : Device) (c : Call) : Device := { d with trace := d.trace ++ [c] }

/-- The loop of zynq-pwm.c:109-119 from index `i` with `remaining` iterations
to go.  Returns the local `pwm` (index of the channel it points to), `some ret`
when the loop leaves through `goto pwmchip_remove`, and the device. -/
def add_pwm_devices (env : Platform) :
    (remaining : Nat) → (i : Nat) → (pwm : Option Nat) → Device → Option Nat × Option Int × Device
  | 0, _, pwm, d => (pwm, none, d)
  | k + 1, i, _, d =>
    -- pwm = &axi_pwm->chip.pwms[i];
    let pwm := some i
    -- data = devm_kzalloc(axi_pwm->dev, sizeof(*data), GFP_KERNEL);
    let d1 := d.call .devm_kzalloc
    if env.kzalloc_data i = false then (pwm, some (-ENOMEM), d1)
    else add_pwm_devices env k (i + 1) pwm (d1.call (.pwm_set_chip_data i))

/-! ## `axi_pwm_probe` (zynq-pwm.c:71-129) -/

/-- Model of `axi_pwm_probe` on a fresh platform device. -/
def axi_pwm_probe (env : Platform) : Outcome Device :=
  let d0 : Device := {}
  -- axi_pwm = devm_kzalloc(&pdev->dev, sizeof(*axi_pwm), GFP_KERNEL);
  let d1 := d0.call .devm_kzalloc
  if env.kzalloc_chip = false then .returned (-ENOMEM) d1
  else
    let a1 : axi_pwm_chip := { dev := true }
    -- res = platform_get_resource(pdev, IORESOURCE_MEM, 0);
    let d2 := { d1 with axi_pwm := some a1 }.call .platform_get_resource
    match env.resource with
    | none => .returned (-ENODEV) d2
    | some _ =>
      -- axi_pwm->base_addr = devm_ioremap_resource(&pdev->dev, res);
      let a2 := { a1 with base_addr := env.ioremap }
      let d3 := { d2 with axi_pwm := some a2 }.call .devm_ioremap_resource
      if IS_ERR a2.base_addr then .returned (PTR_ERR a2.base_addr) d3
      else
        -- clk = devm_clk_get(&pdev->dev, NULL);
        let d4 := d3.call .devm_clk_get
        if IS_ERR env.clk then .returned (PTR_ERR env.clk) (d4.call .dev_err)
        else
          -- axi_pwm->clk_ns = (int)1000000000/clk_get_rate(clk);
          let d5 := d4.call .clk_get_rate
          match udiv (toU32 1000000000) (env.rate % 4294967296) with
          | .error f => .fault f d5
          | .ok q =>
            let a3 := { a2 with clk_ns := toInt32 q }
            let a4 := { a3 with
              chip := { dev := true, ops := true, base := -1, npwm := 1,
                        of_xlate := true, of_pwm_n_cells := 1 } }
            -- ret = pwmchip_add(&axi_pwm->chip);
            let d6 := { d5 with axi_pwm := some a4 }.call .pwmchip_add
            let ret := env.pwmchip_add
            if ret < 0 then
              -- goto disable_pwmclk
              .returned ret ((d6.call .dev_err).call .clk_disable_unprepare)
            else
              match add_pwm_devices env a4.chip.npwm 0 none d6 with
              | (_, some ret, d7) =>
                -- pwmchip_remove: ... disable_pwmclk: ...
                .returned ret ((d7.call .pwmchip_remove).call .clk_disable_unprepare)
              | (pwm, none, d7) =>
                -- platform_set_drvdata(pdev, pwm);
                .returned 0 ({ d7 with drvdata := .pwm_device pwm }.call .platform_set_drvdata)

/-! ## `axi_pwm_remove` (zynq-pwm.c:49-53) -/

/-- Model of `axi_pwm_remove` on the device left by probe.  The driver data
pointer is used as a `struct axi_pwm_chip *` whatever probe stored, and `clk` is
read through it; the calls are recorded without their arguments. -/
def axi_pwm_remove (env : Platform) (pdev : Device) : Outcome Device :=
  -- struct axi_pwm_chip *axi_pwm = platform_get_drvdata(pdev);
  let d1 := pdev.call .platform_get_drvdata
  -- clk_disable_unprepare(axi_pwm->clk);
  let d2 := d1.call .clk_disable_unprepare
  -- return pwmchip_remove(&axi_pwm->chip);
  .returned env.pwmchip_remove (d2.call .pwmchip_remove)

/-- A platform on which every service succeeds, with the given clock rate. -/
def Platform.healthy (rate : Nat) : Platform where
  kzalloc_chip := true
  resource := some 0x43C00000
  ioremap := 0xF0000000
  clk := 0xC0001000
  rate := rate
  pwmchip_add := 0
  kzalloc_data := fun _ => true
  pwmchip_remove := 0

/-- The state an outcome carries. -/
def Outcome.state {σ : Type} : Outcome σ → σ
  | .returned _ s => s
  | .fault _ s => s

/-- Every service probe relies on succeeds: both allocations, the memory
resource, the mapping, the clock handle and the registration of the chip. -/
def Platform.servicesSucceed (env : Platform) : Bool :=
  env.kzalloc_chip && env.resource.isSome && !IS_ERR env.ioremap && !IS_ERR env.clk
    && decide (0 ≤ env.pwmchip_add) && env.kzalloc_data 0

/-- The calls that give a device-managed resource back: the register mapping,
the clock handle, an allocation. -/
def Call.isRelease : Call → Bool
  | .devm_iounmap => true
  | .devm_clk_put => true
  | .devm_kfree => true
  | _ => false

/-- The chip a successful probe leaves behind, for a mapped address and a
clock period. -/
def probed_chip (base_addr : Nat) (clk_ns : Int) : axi_pwm_chip :=
  { dev := true
    chip := { dev := true, ops := true, base := -1, npwm := 1,
              of_xlate := true, of_pwm_n_cells := 1 }
    base_addr := base_addr
    clk_ns := clk_ns }

/-- The calls of a successful probe, in program order. -/
def probe_calls : List Call :=
  [.devm_kzalloc, .platform_get_resource, .devm_ioremap_resource, .devm_clk_get,
   .clk_get_rate, .pwmchip_add, .devm_kzalloc, .pwm_set_chip_data 0, .platform_set_drvdata]

/-- The detach order as the specification words it: a clock disable, later a
release of the register mapping, later the unregistration of the channel. -/
def detach_order_claimed (calls : List Call) : Bool :=
  [Call.clk_disable_unprepare, Call.devm_iounmap, Call.pwmchip_remove].isSublist calls

/-! ## Arithmetic lemmas -/

theorem sdiv_of_pos (a b : Int) (ha : 0 ≤ a) (hb : 0 < b) : sdiv a b = .ok (a / b) := by
  have hb0 : b ≠ 0 := by omega
  have hb1 : b ≠ -1 := by omega
  simp [sdiv, hb0, hb1, Int.tdiv_eq_ediv ha (le_of_lt hb)]

theorem ssub_of_le (a b : Int) (h0 : 0 ≤ b) (h1 : b ≤ a) (h2 : a ≤ INT_MAX) :
    ssub a b = .ok (a - b) := by
  have h : INT_MIN ≤ a - b ∧ a - b ≤ INT_MAX := by
    simp only [INT_MIN, INT_MAX] at *
    omega
  simp [ssub, h]

theorem toU32_of_range (x : Int) (h0 : 0 ≤ x) (h1 : x ≤ INT_MAX) : toU32 x = x.toNat := by
  simp only [INT_MAX] at h1
  have : x % 4294967296 = x := Int.emod_eq_of_lt h0 (by omega)
  simp [toU32, this]

theorem quotient_bounds (a b : Int) (hb : 0 < b) (hba : b ≤ a) : 1 ≤ a / b ∧ a / b ≤ a := by
  constructor
  · exact (Int.le_ediv_iff_mul_le hb).2 (by omega)
  · exact Int.ediv_le_self b (by omega)

/-- On a valid duty cycle neither division of `axi_pwm_config` faults, and the
two counts are written in program order. -/
theorem config_of_valid {σ : Type} (hw : RegisterInterface σ) (pc : axi_pwm_chip) (s : σ)
    (duty_ns period_ns : Int) (h0 : 0 < duty_ns) (h1 : duty_ns < pc.clk_ns)
    (h2 : pc.clk_ns ≤ INT_MAX) :
    axi_pwm_config hw pc s duty_ns period_ns =
      .returned 0
        (hw.iowrite32
          (hw.iowrite32 s (pc.clk_ns / duty_ns).toNat (pc.base_addr + AXI_PWM_CAPTURE_UP_ADDR))
          (pc.clk_ns / (pc.clk_ns - duty_ns)).toNat
          (pc.base_addr + AXI_PWM_CAPTURE_DOWN_ADDR)) := by
  have hc : 0 ≤ pc.clk_ns := by omega
  have hd : 0 < pc.clk_ns - duty_ns := by omega
  have b1 := quotient_bounds pc.clk_ns duty_ns h0 (le_of_lt h1)
  have b2 := quotient_bounds pc.clk_ns (pc.clk_ns - duty_ns) hd (by omega)
  have u1 : toU32 (pc.clk_ns / duty_ns) = (pc.clk_ns / duty_ns).toNat :=
    toU32_of_range _ (by omega) (by omega)
  have u2 : toU32 (pc.clk_ns / (pc.clk_ns - duty_ns)) = (pc.clk_ns / (pc.clk_ns - duty_ns)).toNat :=
    toU32_of_range _ (by omega) (by omega)
  simp only [axi_pwm_config, sdiv_of_pos pc.clk_ns duty_ns hc h0,
    ssub_of_le pc.clk_ns duty_ns (le_of_lt h0) (le_of_lt h1) h2,
    sdiv_of_pos pc.clk_ns (pc.clk_ns - duty_ns) hc hd, u1, u2]

/-! ## Claims about `axi_pwm_config` -/

/-- C1: for every `int` clock period `clk_ns` and every `duty_ns` with
`0 < duty_ns < clk_ns`, and every `period_ns`, `axi_pwm_config` returns 0
without faulting (no division by zero), and its effect on any register
interface is exactly two writes: `clk_ns / duty_ns` to the UP address, then
`clk_ns / (clk_ns - duty_ns)` to the DOWN address.  On the recording interface
the log is exactly these two writes in that order. -/
theorem config_writes_counts {σ : Type} (hw : RegisterInterface σ) (pc : axi_pwm_chip) (s : σ)
    (duty_ns period_ns : Int) (h0 : 0 < duty_ns) (h1 : duty_ns < pc.clk_ns)
    (h2 : pc.clk_ns ≤ INT_MAX) :
    axi_pwm_config hw pc s duty_ns period_ns =
      .returned 0
        (hw.iowrite32
          (hw.iowrite32 s (pc.clk_ns / duty_ns).toNat (pc.base_addr + AXI_PWM_CAPTURE_UP_ADDR))
          (pc.clk_ns / (pc.clk_ns - duty_ns)).toNat
          (pc.base_addr + AXI_PWM_CAPTURE_DOWN_ADDR))
    ∧ axi_pwm_config recording pc [] duty_ns period_ns =
      .returned 0
        [(pc.base_addr + AXI_PWM_CAPTURE_UP_ADDR, (pc.clk_ns / duty_ns).toNat),
         (pc.base_addr + AXI_PWM_CAPTURE_DOWN_ADDR, (pc.clk_ns / (pc.clk_ns - duty_ns)).toNat)] := by
  refine ⟨config_of_valid hw pc s duty_ns period_ns h0 h1 h2, ?_⟩
  rw [config_of_valid recording pc [] duty_ns period_ns h0 h1 h2]
  simp [recording]

/-- Witness of C1: clock period 20 ns at base address 0x1000, duty 3 ns: the
writes are 20/3 = 6 then 20/17 = 1. -/
theorem config_writes_counts_witness :
    axi_pwm_config recording { base_addr := 0x1000, clk_ns := 20 } [] 3 7 =
      .returned 0 [(0x1000, 6), (0x1000, 1)] :=
  (config_writes_counts recording { base_addr := 0x1000, clk_ns := 20 } [] 3 7
    (by decide) (by decide) (by decide)).2

/-- C4 fails as stated: with clock period 10, `config(0, 10)` and
`config(10, 10)` return no error code; each reaches the division by zero, with
no register written. -/
theorem config_zero_duty_faults :
    axi_pwm_config recording { clk_ns := 10 } [] 0 10 = .fault .divByZero []
    ∧ axi_pwm_config recording { clk_ns := 10 } [] 10 10 = .fault .divByZero []
    ∧ ¬ ∃ code s, code ≠ 0 ∧
        axi_pwm_config recording { clk_ns := 10 } [] 0 10 = .returned code s := by
  refine ⟨by decide, by decide, ?_⟩
  rintro ⟨code, s, -, h⟩
  have h0 : axi_pwm_config recording { clk_ns := 10 } [] 0 10 = .fault .divByZero [] := by
    decide
  rw [h0] at h
  exact Outcome.noConfusion h

/-- C4 as amended: `axi_pwm_config` validates nothing and has no error return.
For every chip, register interface and `period_ns`, `config(0, period_ns)` and
`config(clk_ns, period_ns)` reach the division by zero before any register
write (the hardware state is unchanged), and whenever `axi_pwm_config` returns
at all, on any input, the code it returns is 0. -/
theorem config_invalid_duty_divides_by_zero {σ : Type} (hw : RegisterInterface σ)
    (pc : axi_pwm_chip) (s : σ) (period_ns : Int) :
    axi_pwm_config hw pc s 0 period_ns = .fault .divByZero s
    ∧ axi_pwm_config hw pc s pc.clk_ns period_ns = .fault .divByZero s
    ∧ ∀ duty_ns code s1, axi_pwm_config hw pc s duty_ns period_ns = .returned code s1 →
        code = 0 := by
  refine ⟨by simp [axi_pwm_config, sdiv], ?_, ?_⟩
  · by_cases hc : pc.clk_ns = 0
    · simp [axi_pwm_config, sdiv, hc]
    · have h1 : ¬ (pc.clk_ns = INT_MIN ∧ pc.clk_ns = -1) := by
        rintro ⟨ha, hb⟩
        rw [ha] at hb
        exact absurd hb (by decide)
      have h2 : ssub pc.clk_ns pc.clk_ns = .ok 0 := by
        simp [ssub, INT_MIN, INT_MAX]
      simp [axi_pwm_config, sdiv, hc, h1, h2]
  · intro duty_ns code s1 h
    unfold axi_pwm_config at h
    split at h
    · exact Outcome.noConfusion h
    · split at h
      · exact Outcome.noConfusion h
      · split at h
        · exact Outcome.noConfusion h
        · injection h with hcode _
          exact hcode.symm

/-- Witness of C4 as amended: clock period 10 ns on the recording interface. -/
theorem config_invalid_duty_divides_by_zero_witness :
    axi_pwm_config recording { clk_ns := 10 } [] 0 10 = .fault .divByZero []
    ∧ axi_pwm_config recording { clk_ns := 10 } [] 10 10 = .fault .divByZero []
    ∧ ∀ duty_ns code s1,
        axi_pwm_config recording { clk_ns := 10 } [] duty_ns 10 = .returned code s1 → code = 0 :=
  config_invalid_duty_divides_by_zero recording { clk_ns := 10 } [] 10

/-! ## Claims about `axi_pwm_capture` -/

/-- When neither divisor is zero `axi_pwm_capture` returns 0 with both quotients
stored. -/
theorem capture_of_counts {σ : Type} (hw : RegisterInterface σ) (pc : axi_pwm_chip) (s : σ)
    (result : pwm_capture) (timeout : Nat) (up_count down_count : Nat)
    (hup : (hw.ioread32 s (pc.base_addr + AXI_PWM_CAPTURE_UP_ADDR)).1 % 4294967296 = up_count)
    (hdown : (hw.ioread32 (hw.ioread32 s (pc.base_addr + AXI_PWM_CAPTURE_UP_ADDR)).2
        (pc.base_addr + AXI_PWM_CAPTURE_DOWN_ADDR)).1 % 4294967296 = down_count)
    (h1 : up_count ≠ 0) (h2 : (up_count + down_count) % 4294967296 ≠ 0) :
    axi_pwm_capture hw pc s result timeout =
      .returned 0
        ((hw.ioread32 (hw.ioread32 s (pc.base_addr + AXI_PWM_CAPTURE_UP_ADDR)).2
            (pc.base_addr + AXI_PWM_CAPTURE_DOWN_ADDR)).2,
         { period := toU32 pc.clk_ns / ((up_count + down_count) % 4294967296),
           duty_cycle := toU32 pc.clk_ns / up_count }) := by
  simp only [axi_pwm_capture, hup, hdown, uadd, udiv, h1, h2, if_false]

/-- C3: for every `int` clock period `clk_ns >= 0`, every timeout and every pair
of 32-bit values `up_count`, `down_count` returned by the two register reads,
with `up_count != 0` and 32-bit sum `up_count + down_count != 0`,
`axi_pwm_capture` returns 0 with `period = clk_ns / (up_count + down_count)`
(the sum taken in 32 bits, as the code computes it) and
`duty_cycle = clk_ns / up_count`. -/
theorem capture_computes_measurement {σ : Type} (hw : RegisterInterface σ) (pc : axi_pwm_chip)
    (s : σ) (result : pwm_capture) (timeout : Nat) (up_count down_count : Nat)
    (hclk0 : 0 ≤ pc.clk_ns) (hclk1 : pc.clk_ns ≤ INT_MAX)
    (hu : up_count < 4294967296) (hd : down_count < 4294967296)
    (hup : (hw.ioread32 s (pc.base_addr + AXI_PWM_CAPTURE_UP_ADDR)).1 = up_count)
    (hdown : (hw.ioread32 (hw.ioread32 s (pc.base_addr + AXI_PWM_CAPTURE_UP_ADDR)).2
        (pc.base_addr + AXI_PWM_CAPTURE_DOWN_ADDR)).1 = down_count)
    (h1 : up_count ≠ 0) (h2 : (up_count + down_count) % 4294967296 ≠ 0) :
    ∃ s1 r, axi_pwm_capture hw pc s result timeout = .returned 0 (s1, r)
      ∧ (r.period : Int) = pc.clk_ns / (((up_count + down_count) % 4294967296 : Nat) : Int)
      ∧ (r.duty_cycle : Int) = pc.clk_ns / (up_count : Int) := by
  have e1 : (hw.ioread32 s (pc.base_addr + AXI_PWM_CAPTURE_UP_ADDR)).1 % 4294967296
      = up_count := by rw [hup]; exact Nat.mod_eq_of_lt hu
  have e2 : (hw.ioread32 (hw.ioread32 s (pc.base_addr + AXI_PWM_CAPTURE_UP_ADDR)).2
        (pc.base_addr + AXI_PWM_CAPTURE_DOWN_ADDR)).1 % 4294967296 = down_count := by
    rw [hdown]; exact Nat.mod_eq_of_lt hd
  refine ⟨_, _, capture_of_counts hw pc s result timeout up_count down_count e1 e2 h1 h2, ?_, ?_⟩
  · simp only [toU32_of_range pc.clk_ns hclk0 hclk1]
    rw [Int.natCast_div, Int.toNat_of_nonneg hclk0]
  · simp only [toU32_of_range pc.clk_ns hclk0 hclk1]
    rw [Int.natCast_div, Int.toNat_of_nonneg hclk0]

/-- Witness of C3: clock period 20 ns, the hardware latches `up_count = 3` and
`down_count = 4`: the measurement is period 20/7 = 2, duty cycle 20/3 = 6. -/
theorem capture_computes_measurement_witness :
    ∃ s1 r, axi_pwm_capture scripted { clk_ns := 20 } [3, 4] {} 0 = .returned 0 (s1, r)
      ∧ (r.period : Int) = 20 / (((3 + 4) % 4294967296 : Nat) : Int)
      ∧ (r.duty_cycle : Int) = 20 / ((3 : Nat) : Int) :=
  capture_computes_measurement scripted { clk_ns := 20 } [3, 4] {} 0 3 4
    (by decide) (by decide) (by decide) (by decide) rfl rfl (by decide) (by decide)

/-- C5 fails as stated: with clock period 10 and latched counts
`up_count = 0`, `down_count = 5`, capture returns no error code: it stores
`period = 10/5 = 2` and then divides by zero; with both counts 0 it divides by
zero at once. -/
theorem capture_zero_count_faults :
    axi_pwm_capture scripted { clk_ns := 10 } [0, 5] {} 0
      = .fault .divByZero ([], { period := 2, duty_cycle := 0 })
    ∧ axi_pwm_capture scripted { clk_ns := 10 } [0, 0] {} 0
      = .fault .divByZero ([], { period := 0, duty_cycle := 0 }) := by
  constructor <;> decide

/-- C5 as amended: `axi_pwm_capture` checks neither count and has no error
return.  For every chip, register interface, `*result` and timeout: when the
32-bit sum of the two counts read is 0 the first division divides by zero with
`*result` untouched; when `up_count` is 0 and the sum is not, `result->period`
is stored and the second division divides by zero; and whenever
`axi_pwm_capture` returns at all, the code it returns is 0. -/
theorem capture_zero_count_divides_by_zero {σ : Type} (hw : RegisterInterface σ)
    (pc : axi_pwm_chip) (s : σ) (result : pwm_capture) (timeout : Nat)
    (up_count down_count : Nat)
    (hup : (hw.ioread32 s (pc.base_addr + AXI_PWM_CAPTURE_UP_ADDR)).1 % 4294967296 = up_count)
    (hdown : (hw.ioread32 (hw.ioread32 s (pc.base_addr + AXI_PWM_CAPTURE_UP_ADDR)).2
        (pc.base_addr + AXI_PWM_CAPTURE_DOWN_ADDR)).1 % 4294967296 = down_count) :
    ((up_count + down_count) % 4294967296 = 0 →
      axi_pwm_capture hw pc s result timeout =
        .fault .divByZero
          ((hw.ioread32 (hw.ioread32 s (pc.base_addr + AXI_PWM_CAPTURE_UP_ADDR)).2
              (pc.base_addr + AXI_PWM_CAPTURE_DOWN_ADDR)).2, result))
    ∧ (up_count = 0 → (up_count + down_count) % 4294967296 ≠ 0 →
      axi_pwm_capture hw pc s result timeout =
        .fault .divByZero
          ((hw.ioread32 (hw.ioread32 s (pc.base_addr + AXI_PWM_CAPTURE_UP_ADDR)).2
              (pc.base_addr + AXI_PWM_CAPTURE_DOWN_ADDR)).2,
           { result with
             period := toU32 pc.clk_ns / ((up_count + down_count) % 4294967296) }))
    ∧ (∀ code st, axi_pwm_capture hw pc s result timeout = .returned code st → code = 0) := by
  refine ⟨?_, ?_, ?_⟩
  · intro h
    simp only [axi_pwm_capture, hup, hdown, uadd, udiv, h, if_true]
  · intro h0 h
    subst h0
    simp only [axi_pwm_capture, hup, hdown, uadd, udiv, h, if_true, if_false]
  · intro code st h
    unfold axi_pwm_capture at h
    simp only at h
    split at h
    · exact Outcome.noConfusion h
    · split at h
      · exact Outcome.noConfusion h
      · injection h with hcode _
        exact hcode.symm

/-- Witness of C5 as amended: clock period 10, latched counts 0 and 5. -/
theorem capture_zero_count_divides_by_zero_witness :
    axi_pwm_capture scripted { clk_ns := 10 } [0, 5] {} 0 =
      .fault .divByZero ([], { period := 2, duty_cycle := 0 }) :=
  (capture_zero_count_divides_by_zero scripted { clk_ns := 10 } [0, 5] {} 0 0 5 rfl rfl).2.1
    rfl (by decide)

/-! ## Config followed by capture on a storing register bank -/

/-- C2 at `clk_ns = 10`, `config(2, 10)`: the two writes are `up_count = 5`
then `down_count = 1`, both to offset 0, so the register bank keeps only 1.
The following capture reads 1 for both counts and returns `period = 10/2 = 5`,
`duty_cycle = 10/1 = 10`, not the configured counts 5 and 1.  At the spec's own
example `config(5, 10)` both counts are 2 and capture returns period 2, duty
cycle 5. -/
theorem config_then_capture_aliased_registers :
    axi_pwm_config recording { clk_ns := 10 } [] 2 10 = .returned 0 [(0, 5), (0, 1)]
    ∧ (∃ s1, axi_pwm_config storing { clk_ns := 10 } (fun _ => 0) 2 10 = .returned 0 s1
        ∧ (storing.ioread32 s1 AXI_PWM_CAPTURE_UP_ADDR).1 = 1
        ∧ (storing.ioread32 s1 AXI_PWM_CAPTURE_DOWN_ADDR).1 = 1
        ∧ axi_pwm_capture storing { clk_ns := 10 } s1 {} 0
            = .returned 0 (s1, { period := 5, duty_cycle := 10 }))
    ∧ (∃ s1, axi_pwm_config storing { clk_ns := 10 } (fun _ => 0) 5 10 = .returned 0 s1
        ∧ axi_pwm_capture storing { clk_ns := 10 } s1 {} 0
            = .returned 0 (s1, { period := 2, duty_cycle := 5 })) := by
  refine ⟨by decide, ⟨_, rfl, rfl, rfl, rfl⟩, ⟨_, rfl, rfl⟩⟩

/-- C10: for every `int` clock period `clk_ns > 0` and every `duty_ns` with
`0 < duty_ns < clk_ns`, the two values `axi_pwm_config` writes satisfy
`1 <= up_count <= clk_ns` and `1 <= down_count <= clk_ns`, their sum stays
below `2^32` and so is not 0 in 32 bits, and on a register bank that stores
what is written the following `axi_pwm_capture` returns 0: it divides by no
zero. -/
theorem valid_config_programs_nonzero_counts (pc : axi_pwm_chip) (s : Nat → Nat)
    (duty_ns period_ns : Int) (result : pwm_capture) (timeout : Nat)
    (hclk : 0 < pc.clk_ns) (h2 : pc.clk_ns ≤ INT_MAX)
    (h0 : 0 < duty_ns) (h1 : duty_ns < pc.clk_ns) :
    ∃ up_count down_count : Nat,
      axi_pwm_config recording pc [] duty_ns period_ns =
        .returned 0 [(pc.base_addr + AXI_PWM_CAPTURE_UP_ADDR, up_count),
                     (pc.base_addr + AXI_PWM_CAPTURE_DOWN_ADDR, down_count)]
      ∧ 1 ≤ up_count ∧ (up_count : Int) ≤ pc.clk_ns
      ∧ 1 ≤ down_count ∧ (down_count : Int) ≤ pc.clk_ns
      ∧ up_count + down_count < 4294967296
      ∧ (up_count + down_count) % 4294967296 ≠ 0
      ∧ ∃ s1 s2 r, axi_pwm_config storing pc s duty_ns period_ns = .returned 0 s1
          ∧ axi_pwm_capture storing pc s1 result timeout = .returned 0 (s2, r) := by
  have hd : 0 < pc.clk_ns - duty_ns := by omega
  have b1 := quotient_bounds pc.clk_ns duty_ns h0 (le_of_lt h1)
  have b2 := quotient_bounds pc.clk_ns (pc.clk_ns - duty_ns) hd (by omega)
  have hmax : pc.clk_ns ≤ 2147483647 := h2
  refine ⟨(pc.clk_ns / duty_ns).toNat, (pc.clk_ns / (pc.clk_ns - duty_ns)).toNat, ?_,
    by omega, by omega, by omega, by omega, by omega, by omega, ?_⟩
  · rw [config_of_valid recording pc [] duty_ns period_ns h0 h1 h2]
    simp [recording]
  · have hlt : (pc.clk_ns / (pc.clk_ns - duty_ns)).toNat < 4294967296 := by omega
    have hcap := capture_of_counts storing pc
      (storing.iowrite32
        (storing.iowrite32 s (pc.clk_ns / duty_ns).toNat (pc.base_addr + AXI_PWM_CAPTURE_UP_ADDR))
        (pc.clk_ns / (pc.clk_ns - duty_ns)).toNat (pc.base_addr + AXI_PWM_CAPTURE_DOWN_ADDR))
      result timeout
      (pc.clk_ns / (pc.clk_ns - duty_ns)).toNat (pc.clk_ns / (pc.clk_ns - duty_ns)).toNat
      (by simp [storing, AXI_PWM_CAPTURE_UP_ADDR, AXI_PWM_CAPTURE_DOWN_ADDR,
            Nat.mod_eq_of_lt hlt])
      (by simp [storing, AXI_PWM_CAPTURE_UP_ADDR, AXI_PWM_CAPTURE_DOWN_ADDR,
            Nat.mod_eq_of_lt hlt])
      (by omega) (by omega)
    exact ⟨_, _, _, config_of_valid storing pc s duty_ns period_ns h0 h1 h2, hcap⟩

/-- Witness of C10: clock period 20 ns at base address 0x1000, duty 3 ns. -/
theorem valid_config_programs_nonzero_counts_witness :
    ∃ up_count down_count : Nat,
      axi_pwm_config recording { base_addr := 0x1000, clk_ns := 20 } [] 3 7 =
        .returned 0 [(0x1000 + AXI_PWM_CAPTURE_UP_ADDR, up_count),
                     (0x1000 + AXI_PWM_CAPTURE_DOWN_ADDR, down_count)]
      ∧ 1 ≤ up_count ∧ (up_count : Int) ≤ 20
      ∧ 1 ≤ down_count ∧ (down_count : Int) ≤ 20
      ∧ up_count + down_count < 4294967296
      ∧ (up_count + down_count) % 4294967296 ≠ 0
      ∧ ∃ s1 s2 r,
          axi_pwm_config storing { base_addr := 0x1000, clk_ns := 20 } (fun _ => 0) 3 7
            = .returned 0 s1
          ∧ axi_pwm_capture storing { base_addr := 0x1000, clk_ns := 20 } s1 {} 0
            = .returned 0 (s2, r) :=
  valid_config_programs_nonzero_counts { base_addr := 0x1000, clk_ns := 20 } (fun _ => 0) 3 7 {} 0
    (by decide) (by decide) (by decide) (by decide)

/-! ## Lemmas about `axi_pwm_probe` -/

theorem PTR_ERR_neg (ptr : Nat) (h : IS_ERR ptr = true) : PTR_ERR ptr < 0 := by
  simp only [IS_ERR, decide_eq_true_eq] at h
  have hlt : ptr % 4294967296 < 4294967296 := Nat.mod_lt _ (by decide)
  have hge : ¬ ptr % 4294967296 < 2147483648 := by omega
  simp only [PTR_ERR, toInt32, hge, if_false]
  omega

theorem clock_period_value (rate : Nat) (h0 : 0 < rate) (h1 : rate < 4294967296) :
    toInt32 (toU32 1000000000 / (rate % 4294967296)) = ((1000000000 / rate : Nat) : Int) := by
  have e : toU32 1000000000 = 1000000000 := by decide
  have hq : 1000000000 / rate ≤ 1000000000 := Nat.div_le_self _ _
  have hm : 1000000000 / rate % 4294967296 = 1000000000 / rate := Nat.mod_eq_of_lt (by omega)
  have hlt : 1000000000 / rate < 2147483648 := by omega
  simp only [e, Nat.mod_eq_of_lt h1, toInt32, hm, hlt, if_true]

/-- When every service succeeds and the rate is not 0, probe returns 0 and
leaves the chip, the calls and the driver data below. -/
theorem probe_of_services (env : Platform) (hs : env.servicesSucceed = true)
    (hr : env.rate % 4294967296 ≠ 0) :
    axi_pwm_probe env = .returned 0
      { trace := probe_calls
        axi_pwm := some (probed_chip env.ioremap
          (toInt32 (toU32 1000000000 / (env.rate % 4294967296))))
        drvdata := .pwm_device (some 0) } := by
  simp only [Platform.servicesSucceed, Bool.and_eq_true, Bool.not_eq_true', decide_eq_true_eq,
    Option.isSome_iff_exists] at hs
  obtain ⟨⟨⟨⟨⟨h1, r, h2⟩, h3⟩, h4⟩, h5⟩, h6⟩ := hs
  have h5' : ¬ env.pwmchip_add < 0 := by omega
  simp [axi_pwm_probe, h1, h2, h3, h4, udiv, hr, h5', add_pwm_devices, h6, Device.call,
    probe_calls, probed_chip]

/-- Probe returns 0 only when every service succeeded and the rate is not 0. -/
theorem services_of_probe (env : Platform) (d : Device)
    (h : axi_pwm_probe env = .returned 0 d) :
    env.servicesSucceed = true ∧ env.rate % 4294967296 ≠ 0 := by
  unfold axi_pwm_probe at h
  by_cases h1 : env.kzalloc_chip = false
  · simp [h1, ENOMEM] at h
  · cases h2 : env.resource with
    | none => simp [h1, h2, ENODEV] at h
    | some r =>
      by_cases h3 : IS_ERR env.ioremap = true
      · have := PTR_ERR_neg _ h3
        simp [h1, h2, h3] at h
        omega
      · by_cases h4 : IS_ERR env.clk = true
        · have := PTR_ERR_neg _ h4
          simp [h1, h2, h3, h4] at h
          omega
        · by_cases hr : env.rate % 4294967296 = 0
          · simp [h1, h2, h3, h4, udiv, hr] at h
          · by_cases h5 : env.pwmchip_add < 0
            · simp [h1, h2, h3, h4, udiv, hr, h5] at h
              omega
            · by_cases h6 : env.kzalloc_data 0 = false
              · simp [h1, h2, h3, h4, udiv, hr, h5, add_pwm_devices, h6, ENOMEM] at h
              · refine ⟨?_, hr⟩
                simp only [Bool.not_eq_false] at h1 h6
                simp only [Bool.not_eq_true] at h3 h4
                have h5' : 0 ≤ env.pwmchip_add := by omega
                simp [Platform.servicesSucceed, h1, h2, h3, h4, h5', h6]

/-! ## Claims about `axi_pwm_probe` -/

/-- C6: for every 32-bit clock rate `rate_hz > 0`, a probe that returns 0
leaves a chip whose `clk_ns` is `1_000_000_000 / rate_hz` (truncating) and
whose `npwm` is 1, with one registration and one channel set up; and when every
service succeeds probe does return 0.  At 50 MHz the period is 20 ns, at
100 MHz it is 10 ns. -/
theorem probe_stores_clock_period (env : Platform) (h0 : 0 < env.rate)
    (h1 : env.rate < 4294967296) :
    (∀ d, axi_pwm_probe env = .returned 0 d →
      ∃ c, d.axi_pwm = some c ∧ c.clk_ns = ((1000000000 / env.rate : Nat) : Int)
        ∧ c.chip.npwm = 1 ∧ d.trace.count .pwmchip_add = 1
        ∧ d.trace.filter (fun x => x matches .pwm_set_chip_data _) = [.pwm_set_chip_data 0])
    ∧ (env.servicesSucceed = true → ∃ d, axi_pwm_probe env = .returned 0 d)
    ∧ (env.rate = 50000000 → ((1000000000 / env.rate : Nat) : Int) = 20)
    ∧ (env.rate = 100000000 → ((1000000000 / env.rate : Nat) : Int) = 10) := by
  have hr : env.rate % 4294967296 ≠ 0 := by rw [Nat.mod_eq_of_lt h1]; omega
  refine ⟨?_, fun hs => ⟨_, probe_of_services env hs hr⟩, ?_, ?_⟩
  · intro d h
    have hs := (services_of_probe env d h).1
    rw [probe_of_services env hs hr] at h
    injection h with _ hd
    subst hd
    refine ⟨_, rfl, clock_period_value env.rate h0 h1, rfl, ?_, ?_⟩
    · show List.count Call.pwmchip_add probe_calls = 1
      decide
    · show List.filter _ probe_calls = _
      decide
  · intro e; rw [e]; decide
  · intro e; rw [e]; decide

/-- Witness of C6: at 50 MHz with every service succeeding probe returns 0
with `clk_ns = 20` and one channel. -/
theorem probe_stores_clock_period_witness :
    ∃ d c, axi_pwm_probe (Platform.healthy 50000000) = .returned 0 d
      ∧ d.axi_pwm = some c ∧ c.clk_ns = 20 ∧ c.chip.npwm = 1 := by
  obtain ⟨h, hex, h50, -⟩ :=
    probe_stores_clock_period (Platform.healthy 50000000) (by decide) (by decide)
  obtain ⟨d, hd⟩ := hex (by decide)
  obtain ⟨c, hc, hclk, hn, -, -⟩ := h d hd
  exact ⟨d, c, hd, hc, hclk.trans (h50 rfl), hn⟩

/-- C7 fails as stated: at a reported rate of 2 GHz, with every service
succeeding, probe returns 0 and the stored clock period is 0, not strictly
positive; at a reported rate of 0 probe returns no error: it divides by
zero. -/
theorem probe_clock_period_zero_at_2GHz :
    (∃ d c, axi_pwm_probe (Platform.healthy 2000000000) = .returned 0 d
      ∧ d.axi_pwm = some c ∧ c.clk_ns = 0)
    ∧ (∃ d, axi_pwm_probe (Platform.healthy 0) = .fault .divByZero d) := by
  refine ⟨⟨_, _, rfl, rfl, by decide⟩, ⟨_, rfl⟩⟩

/-- C7 as amended: for every 32-bit rate, a probe that returns 0 has stored
`clk_ns = 1_000_000_000 / rate_hz`, which is strictly positive exactly when
`0 < rate_hz <= 1_000_000_000`.  Probe does not check the rate: for a rate
above 1 GHz with every service succeeding it returns 0 with `clk_ns = 0`, and
for a rate of 0 with every service succeeding it reaches the division by
zero instead of returning an error. -/
theorem probe_clock_period_positive_iff (env : Platform) (h1 : env.rate < 4294967296) :
    (∀ d, axi_pwm_probe env = .returned 0 d →
      ∃ c, d.axi_pwm = some c ∧ c.clk_ns = ((1000000000 / env.rate : Nat) : Int)
        ∧ (0 < c.clk_ns ↔ 0 < env.rate ∧ env.rate ≤ 1000000000))
    ∧ (env.servicesSucceed = true → 1000000000 < env.rate →
        ∃ d c, axi_pwm_probe env = .returned 0 d ∧ d.axi_pwm = some c ∧ c.clk_ns = 0)
    ∧ (env.servicesSucceed = true → env.rate = 0 →
        ∃ d, axi_pwm_probe env = .fault .divByZero d) := by
  refine ⟨?_, ?_, ?_⟩
  · intro d h
    obtain ⟨hs, hr⟩ := services_of_probe env d h
    rw [Nat.mod_eq_of_lt h1] at hr
    have h0 : 0 < env.rate := Nat.pos_of_ne_zero hr
    have hr2 : env.rate % 4294967296 ≠ 0 := by rw [Nat.mod_eq_of_lt h1]; exact hr
    rw [probe_of_services env hs hr2] at h
    injection h with _ hd
    subst hd
    refine ⟨_, rfl, clock_period_value env.rate h0 h1, ?_⟩
    show 0 < toInt32 (toU32 1000000000 / (env.rate % 4294967296)) ↔ _
    rw [clock_period_value env.rate h0 h1]
    constructor
    · intro hpos
      refine ⟨h0, ?_⟩
      by_contra hgt
      have : 1000000000 / env.rate = 0 := Nat.div_eq_of_lt (by omega)
      rw [this] at hpos
      exact absurd hpos (by decide)
    · rintro ⟨-, hle⟩
      have : 0 < 1000000000 / env.rate := Nat.div_pos hle h0
      exact_mod_cast this
  · intro hs hgt
    have h0 : 0 < env.rate := by omega
    have hr2 : env.rate % 4294967296 ≠ 0 := by rw [Nat.mod_eq_of_lt h1]; omega
    refine ⟨_, _, probe_of_services env hs hr2, rfl, ?_⟩
    show toInt32 (toU32 1000000000 / (env.rate % 4294967296)) = 0
    rw [clock_period_value env.rate h0 h1, Nat.div_eq_of_lt hgt]
    rfl
  · intro hs hz
    simp only [Platform.servicesSucceed, Bool.and_eq_true, Bool.not_eq_true', decide_eq_true_eq,
      Option.isSome_iff_exists] at hs
    obtain ⟨⟨⟨⟨⟨h1, r, h2⟩, h3⟩, h4⟩, h5⟩, h6⟩ := hs
    refine ⟨(axi_pwm_probe env).state, ?_⟩
    simp [axi_pwm_probe, h1, h2, h3, h4, udiv, hz, Outcome.state]

/-- Witness of C7 as amended: at 100 MHz a successful probe stores a strictly
positive clock period. -/
theorem probe_clock_period_positive_iff_witness :
    ∃ d c, axi_pwm_probe (Platform.healthy 100000000) = .returned 0 d
      ∧ d.axi_pwm = some c ∧ 0 < c.clk_ns := by
  obtain ⟨c, hc, -, hpos⟩ :=
    (probe_clock_period_positive_iff (Platform.healthy 100000000) (by decide)).1 _ rfl
  exact ⟨_, c, rfl, hc, hpos.2 ⟨by decide, by decide⟩⟩

/-- C8 fails as stated.  When `devm_clk_get` fails (here with the error
pointer for -2) after a successful mapping, probe returns -2 having issued no
release of the mapping: the mapping is still held at the moment of return.
When `pwmchip_add` fails (here with -16), probe disables a clock that no call
has enabled. -/
theorem probe_failure_releases_nothing :
    axi_pwm_probe { Platform.healthy 50000000 with clk := 4294967294 } =
      .returned (-2)
        { trace := [.devm_kzalloc, .platform_get_resource, .devm_ioremap_resource,
                    .devm_clk_get, .dev_err]
          axi_pwm := some { dev := true, base_addr := 0xF0000000 }
          drvdata := .unset }
    ∧ (axi_pwm_probe { Platform.healthy 50000000 with clk := 4294967294 }).state.trace.any
        Call.isRelease = false
    ∧ (axi_pwm_probe { Platform.healthy 50000000 with pwmchip_add := -16 }).state.trace =
        [.devm_kzalloc, .platform_get_resource, .devm_ioremap_resource, .devm_clk_get,
         .clk_get_rate, .pwmchip_add, .dev_err, .clk_disable_unprepare]
    ∧ Call.clk_prepare_enable ∉
        (axi_pwm_probe { Platform.healthy 50000000 with pwmchip_add := -16 }).state.trace := by
  refine ⟨by decide, by decide, by decide, by decide⟩

/-- C8 as amended: `axi_pwm_probe` acquires its allocation, the register mapping
and the clock handle through device-managed calls and gives none of them back
itself: on no path does it issue a release, so what was acquired is still held
when it returns and its release is left to the platform.  When clock
acquisition fails after a successful mapping, probe returns the (negative)
error code of the clock pointer at once, having issued exactly `devm_kzalloc`,
`platform_get_resource`, `devm_ioremap_resource`, `devm_clk_get`, `dev_err`:
no clock is disabled.  When the registration of the chip fails, probe returns
the registration's error code. -/
theorem probe_failure_paths (env : Platform) :
    (∀ c ∈ (axi_pwm_probe env).state.trace, c.isRelease = false)
    ∧ (env.kzalloc_chip = true → env.resource.isSome = true → IS_ERR env.ioremap = false →
        IS_ERR env.clk = true →
        axi_pwm_probe env =
          .returned (PTR_ERR env.clk)
            { trace := [.devm_kzalloc, .platform_get_resource, .devm_ioremap_resource,
                        .devm_clk_get, .dev_err]
              axi_pwm := some { dev := true, base_addr := env.ioremap }
              drvdata := .unset }
        ∧ PTR_ERR env.clk < 0)
    ∧ (env.kzalloc_chip = true → env.resource.isSome = true → IS_ERR env.ioremap = false →
        IS_ERR env.clk = false → env.rate % 4294967296 ≠ 0 → env.pwmchip_add < 0 →
        ∃ d, axi_pwm_probe env = .returned env.pwmchip_add d) := by
  refine ⟨?_, ?_, ?_⟩
  · by_cases h1 : env.kzalloc_chip = false
    · simp [axi_pwm_probe, h1, Outcome.state, Device.call, Call.isRelease]
    · cases h2 : env.resource with
      | none => simp [axi_pwm_probe, h1, h2, Outcome.state, Device.call, Call.isRelease]
      | some r =>
        by_cases h3 : IS_ERR env.ioremap = true
        · simp [axi_pwm_probe, h1, h2, h3, Outcome.state, Device.call, Call.isRelease]
        · by_cases h4 : IS_ERR env.clk = true
          · simp [axi_pwm_probe, h1, h2, h3, h4, Outcome.state, Device.call, Call.isRelease]
          · by_cases hr : env.rate % 4294967296 = 0
            · simp [axi_pwm_probe, h1, h2, h3, h4, udiv, hr, Outcome.state, Device.call,
                Call.isRelease]
            · by_cases h5 : env.pwmchip_add < 0
              · simp [axi_pwm_probe, h1, h2, h3, h4, udiv, hr, h5, Outcome.state, Device.call,
                  Call.isRelease]
              · by_cases h6 : env.kzalloc_data 0 = false
                · simp [axi_pwm_probe, h1, h2, h3, h4, udiv, hr, h5, add_pwm_devices, h6,
                    Outcome.state, Device.call, Call.isRelease]
                · simp [axi_pwm_probe, h1, h2, h3, h4, udiv, hr, h5, add_pwm_devices, h6,
                    Outcome.state, Device.call, Call.isRelease]
  · intro h1 h2 h3 h4
    obtain ⟨r, h2⟩ := Option.isSome_iff_exists.1 h2
    refine ⟨?_, PTR_ERR_neg _ h4⟩
    simp [axi_pwm_probe, h1, h2, h3, h4, Device.call]
  · intro h1 h2 h3 h4 hr h5
    obtain ⟨r, h2⟩ := Option.isSome_iff_exists.1 h2
    refine ⟨(axi_pwm_probe env).state, ?_⟩
    simp [axi_pwm_probe, h1, h2, h3, h4, udiv, hr, h5, Outcome.state]

/-- Witness of C8 as amended: the clock pointer is the error pointer for -2
after a successful mapping at 0xF0000000. -/
theorem probe_failure_paths_witness :
    axi_pwm_probe { Platform.healthy 50000000 with clk := 4294967294 } =
      .returned (PTR_ERR 4294967294)
        { trace := [.devm_kzalloc, .platform_get_resource, .devm_ioremap_resource,
                    .devm_clk_get, .dev_err]
          axi_pwm := some { dev := true, base_addr := 0xF0000000 }
          drvdata := .unset }
    ∧ PTR_ERR 4294967294 < 0 :=
  (probe_failure_paths { Platform.healthy 50000000 with clk := 4294967294 }).2.1
    rfl rfl (by decide) (by decide)

/-! ## Claims about `axi_pwm_remove` -/

/-- C9 fails as stated: after a successful probe at 50 MHz, `axi_pwm_remove`
issues `platform_get_drvdata`, `clk_disable_unprepare`, `pwmchip_remove` and
nothing else; no release of the register mapping is among the calls, so the
claimed order (clock disable, mapping release, unregistration) does not
occur. -/
theorem remove_issues_no_mapping_release :
    ∃ d d1, axi_pwm_probe (Platform.healthy 50000000) = .returned 0 d
      ∧ axi_pwm_remove (Platform.healthy 50000000) d = .returned 0 d1
      ∧ d1.trace = d.trace ++ [.platform_get_drvdata, .clk_disable_unprepare, .pwmchip_remove]
      ∧ Call.devm_iounmap ∉ d1.trace
      ∧ detach_order_claimed d1.trace = false := by
  refine ⟨_, _, rfl, rfl, by decide, by decide, by decide⟩

/-- C9 as amended: for every device left by a successful probe,
`axi_pwm_remove` issues exactly the calls `platform_get_drvdata`,
`clk_disable_unprepare`, `pwmchip_remove`, in this order, and returns the
result of `pwmchip_remove`: the clock disable comes before the unregistration
of the channel, and remove itself releases no register mapping (no release call
occurs anywhere in the calls of probe and remove). -/
theorem remove_disables_clock_then_unregisters (env : Platform) (d : Device)
    (h : axi_pwm_probe env = .returned 0 d) :
    ∃ d1, axi_pwm_remove env d = .returned env.pwmchip_remove d1
      ∧ d1.trace = d.trace ++ [.platform_get_drvdata, .clk_disable_unprepare, .pwmchip_remove]
      ∧ d1.axi_pwm = d.axi_pwm
      ∧ (∀ c ∈ d1.trace, c.isRelease = false)
      ∧ detach_order_claimed d1.trace = false := by
  obtain ⟨hs, hr⟩ := services_of_probe env d h
  rw [probe_of_services env hs hr] at h
  injection h with _ hd
  subst hd
  refine ⟨_, rfl, ?_, rfl, ?_, ?_⟩
  · simp [Device.call]
  · show ∀ c ∈ (probe_calls ++ [Call.platform_get_drvdata] ++ [Call.clk_disable_unprepare]
        ++ [Call.pwmchip_remove]), c.isRelease = false
    decide
  · show detach_order_claimed (probe_calls ++ [Call.platform_get_drvdata]
        ++ [Call.clk_disable_unprepare] ++ [Call.pwmchip_remove]) = false
    decide

/-- Witness of C9 as amended: probe then remove at 50 MHz. -/
theorem remove_disables_clock_then_unregisters_witness :
    ∃ d d1, axi_pwm_probe (Platform.healthy 50000000) = .returned 0 d
      ∧ axi_pwm_remove (Platform.healthy 50000000) d = .returned 0 d1
      ∧ d1.trace = d.trace ++ [.platform_get_drvdata, .clk_disable_unprepare, .pwmchip_remove] := by
  obtain ⟨d1, h1, h2, -⟩ :=
    remove_disables_clock_then_unregisters (Platform.healthy 50000000) _ rfl
  exact ⟨_, d1, rfl, h1, h2⟩

end ZynqPwm
